import Mathlib

/-!
# Verification of `droughtmapper.py`

A shallow embedding of the `DroughtMapper` class from `src/droughtmapper.py`.

The Python code is a thin orchestration layer over external capabilities
(`requests`, `xml.etree.ElementTree`, the filesystem, `os.path`).  We model
those capabilities as explicit data:

* `World` bundles the deterministic behaviour of the environment during one
  run: the HTTP layer (`net`, modelling `requests.get`), the XML reader
  (`parse`, modelling `ElementTree.fromstring`; `none` means the parser
  raises `ParseError`), `os.path.realpath`, and the filesystem (`fs`, an
  association list from paths to the raw bytes stored there).  Two event
  traces record observable effects: `fetchLog` lists the URLs fetched by
  `requests.get` (most recent first) and `rasterLog` records each invocation
  of the `raster` step with its arguments.
* `DroughtMapper` holds the instance state: the `cache` root path set by
  `__init__` and the `_latest_date` memo (`latestDate`, where `none` means
  the attribute is unset, matching `getattr(self, '_latest_date', None)`).
* Python exceptions become the inductive `PyError`, and each method returns
  `Except PyError result × World × DroughtMapper` (explicit state passing).

Dates parsed by `datetime.datetime.strptime(s, '%Y%m%d')` become the `Date`
structure; `strptimeYmd` models the parse of an eight-character digit string
including the calendar validation done by the `datetime` constructor
(month 1..12, day bounded by the month length with Gregorian leap years).
`datetime.strftime` on the fixed URL format is modelled by zero-padded
decimal rendering of the year (4 digits), month and day (2 digits each).
-/

/-- A calendar date as produced by `datetime.datetime.strptime(s, '%Y%m%d')`. -/
structure Date where
  year : Nat
  month : Nat
  day : Nat
deriving DecidableEq

/-- Gregorian leap-year test, as used by Python's `datetime` validation. -/
def isLeap (y : Nat) : Bool :=
  (y % 4 == 0 && y % 100 != 0) || (y % 400 == 0)

/-- Number of days in a month, as validated by the `datetime` constructor. -/
def daysInMonth (y m : Nat) : Nat :=
  if m == 2 then (if isLeap y then 29 else 28)
  else if m == 4 || m == 6 || m == 9 || m == 11 then 30
  else 31

/-- Value of a decimal digit character, `none` for a non-digit. -/
def digitVal (c : Char) : Option Nat :=
  if 48 ≤ c.toNat ∧ c.toNat ≤ 57 then some (c.toNat - 48) else none

/-- Model of `datetime.datetime.strptime(s, '%Y%m%d')` on its eight-digit
input format: four year digits, two month digits, two day digits, with the
calendar validation performed by the `datetime` constructor (year at least
`MINYEAR = 1`, month 1..12, day within the month).  `none` models the
`ValueError` raised on any other input. -/
def strptimeYmd (s : String) : Option Date :=
  match s.data with
  | [c1, c2, c3, c4, c5, c6, c7, c8] =>
    match digitVal c1, digitVal c2, digitVal c3, digitVal c4,
          digitVal c5, digitVal c6, digitVal c7, digitVal c8 with
    | some y1, some y2, some y3, some y4, some m1, some m2, some d1, some d2 =>
      let y := ((y1 * 10 + y2) * 10 + y3) * 10 + y4
      let m := m1 * 10 + m2
      let d := d1 * 10 + d2
      if 1 ≤ y ∧ 1 ≤ m ∧ m ≤ 12 ∧ 1 ≤ d ∧ d ≤ daysInMonth y m then
        some { year := y, month := m, day := d }
      else none
    | _, _, _, _, _, _, _, _ => none
  | _ => none

/-- The decimal digit character for `n % 10`. -/
def digitChar (n : Nat) : Char :=
  match n % 10 with
  | 0 => '0' | 1 => '1' | 2 => '2' | 3 => '3' | 4 => '4'
  | 5 => '5' | 6 => '6' | 7 => '7' | 8 => '8' | _ => '9'

/-- Zero-padded four-digit decimal rendering, modelling `strftime('%Y')`
for the years `datetime` admits (1..9999). -/
def pad4 (n : Nat) : String :=
  ⟨[digitChar (n / 1000), digitChar (n / 100), digitChar (n / 10), digitChar n]⟩

/-- Zero-padded two-digit decimal rendering, modelling `strftime('%m')`
and `strftime('%d')`. -/
def pad2 (n : Nat) : String :=
  ⟨[digitChar (n / 10), digitChar n]⟩

/-- An XML element as exposed by `xml.etree.ElementTree`: a tag, an
attribute list, and child elements. -/
inductive Xml where
  | elem : String → List (String × String) → List Xml → Xml

/-- The element's tag. -/
def Xml.tag : Xml → String
  | .elem t _ _ => t

/-- The element's direct children. -/
def Xml.children : Xml → List Xml
  | .elem _ _ c => c

/-- Model of `Element.get(key)`: look the key up in the attribute list. -/
def Xml.attr (x : Xml) (k : String) : Option String :=
  match x with
  | .elem _ a _ => a.lookup k

/-- Model of `Element.find(tag)` for a plain tag path: the first direct
child carrying that tag, or `None`. -/
def Xml.findChild (x : Xml) (t : String) : Option Xml :=
  x.children.find? (fun c => c.tag == t)

/-- The Python exceptions this code can raise.  `httpError` is
`requests.exceptions.HTTPError` from `Response.raise_for_status`;
`xmlParseError` is `xml.etree.ElementTree.ParseError`; `attributeError` and
`typeError` are the built-in exceptions raised by attribute access on
`None` and by `strptime(None, ...)`; `valueError` is the `ValueError`
raised by `strptime` on a malformed date string. -/
inductive PyError where
  | httpError (status : Nat)
  | xmlParseError
  | attributeError
  | typeError
  | valueError
deriving DecidableEq

/-- One HTTP response as seen through `requests`: the status code, the
decoded text body (`r.text`) and the raw byte body (`r.content`). -/
structure HttpResponse where
  status : Nat
  bodyText : String
  bodyBytes : List Nat

/-- The environment of one run.  `net url` is the response `requests.get(url)`
returns; `parse` is `ElementTree.fromstring` (`none` = `ParseError`);
`realpath` is `os.path.realpath`; `fs` maps existing paths to their bytes.
`fetchLog` and `rasterLog` are event traces of the fetches performed and of
the invocations of the raster step. -/
structure World where
  net : String → HttpResponse
  parse : String → Option Xml
  realpath : String → String
  fs : List (String × List Nat)
  fetchLog : List String
  rasterLog : List (String × Option String)

/-- Model of `Response.raise_for_status`: it raises exactly for client and
server error codes, `400 <= status < 600`. -/
def httpFailure (status : Nat) : Bool :=
  decide (400 ≤ status) && decide (status < 600)

/-- Model of `os.path.basename`: the part of the path after the last slash. -/
def basename (s : String) : String :=
  ⟨(s.data.reverse.takeWhile (fun c => c != '/')).reverse⟩

/-- Model of one step of `os.path.join` on POSIX: an absolute second
component replaces the first; otherwise a slash is inserted unless the
first component is empty or already ends in a slash. -/
def joinOne (a b : String) : String :=
  if b.data.head? = some '/' then b
  else if a.data = [] ∨ a.data.getLast? = some '/' then a ++ b
  else a ++ "/" ++ b

/-- The instance state of a `DroughtMapper` object: the cache root set by
`__init__` and the `_latest_date` memo (`none` when the attribute is
unset). -/
structure DroughtMapper where
  cache : String
  latestDate : Option Date

/-- `DroughtMapper.__init__(self, cache='.cache')`: store
`os.path.realpath(cache)`; the memo attribute starts unset. -/
def DroughtMapper.init (w : World) (cache : String) : DroughtMapper :=
  { cache := w.realpath cache, latestDate := none }

/-- The default value of the `cache` argument of `__init__`. -/
def defaultCache : String := ".cache"

/-- `DroughtMapper()` with the defaulted `cache` argument. -/
def DroughtMapper.initDefault (w : World) : DroughtMapper :=
  DroughtMapper.init w defaultCache

/-- The metadata URL fetched by `get_latest_date`. -/
def totalXmlUrl : String := "http://droughtmonitor.unl.edu/tabular/total.xml"

/-- `DroughtMapper.get_latest_date(self, ignore_cache=False)`, lines 31-55.
If the `_latest_date` memo is set (a `datetime` is always truthy) and the
cache is not ignored, it is returned directly.  Otherwise the metadata URL
is fetched and the body handed to `ElementTree.fromstring`; the first
`week` child's `date` attribute is parsed with `strptime('%Y%m%d')`, the
result memoised and returned.  The failure arms mirror the exceptions the
Python raises at each step: `ParseError` from `fromstring`,
`AttributeError` from `None.get` when no `week` child exists, `TypeError`
from `strptime(None, ...)` when the attribute is missing, `ValueError`
from `strptime` on a malformed date string.  Note the HTTP status of the
response is never examined. -/
def get_latest_date (w : World) (dm : DroughtMapper) (ignore_cache : Bool) :
    Except PyError Date × World × DroughtMapper :=
  match dm.latestDate, ignore_cache with
  | some d, false => (Except.ok d, w, dm)
  | _, _ =>
    let r := w.net totalXmlUrl
    let w1 : World := { w with fetchLog := totalXmlUrl :: w.fetchLog }
    match w.parse r.bodyText with
    | none => (Except.error PyError.xmlParseError, w1, dm)
    | some xml =>
      match xml.findChild "week" with
      | none => (Except.error PyError.attributeError, w1, dm)
      | some week =>
        match week.attr "date" with
        | none => (Except.error PyError.typeError, w1, dm)
        | some ds =>
          match strptimeYmd ds with
          | none => (Except.error PyError.valueError, w1, dm)
          | some d => (Except.ok d, w1, { dm with latestDate := some d })

/-- Line 66: `date.strftime('http://droughtmonitor.unl.edu/data/shapefiles_m/USDM_%Y%m%d_M.zip')`. -/
def usdmUrl (d : Date) : String :=
  "http://droughtmonitor.unl.edu/data/shapefiles_m/USDM_"
    ++ pad4 d.year ++ pad2 d.month ++ pad2 d.day ++ "_M.zip"

/-- Line 68: `os.path.join(self.cache, 'zip', os.path.basename(url))`. -/
def shapefilePath (dm : DroughtMapper) (d : Date) : String :=
  joinOne (joinOne dm.cache "zip") (basename (usdmUrl d))

/-- `DroughtMapper.get_shapefile(self, date, ignore_cache=False)`,
lines 58-86.  The `date` argument is dynamically typed in Python; `render`
passes it through unchanged, so `none` models the `None` value, on which
`date.strftime` raises `AttributeError` before anything else happens.
Otherwise: if a file exists at the computed cache path and the cache is not
ignored, that path is returned with no fetch and no write.  Otherwise the
archive URL is fetched, `raise_for_status` raises `HTTPError` on a failure
status, and on success the response bytes are written to the cache path
(after `os.makedirs` on the parent directory, which the flat-file
filesystem model does not represent separately) and the path returned. -/
def get_shapefile (w : World) (dm : DroughtMapper) (date : Option Date)
    (ignore_cache : Bool) :
    Except PyError String × World × DroughtMapper :=
  match date with
  | none => (Except.error PyError.attributeError, w, dm)
  | some d =>
    let url := usdmUrl d
    let path := shapefilePath dm d
    if (w.fs.lookup path).isSome && !ignore_cache then
      (Except.ok path, w, dm)
    else
      let r := w.net url
      let w1 : World := { w with fetchLog := url :: w.fetchLog }
      if httpFailure r.status then
        (Except.error (PyError.httpError r.status), w1, dm)
      else
        (Except.ok path, { w1 with fs := (path, r.bodyBytes) :: w1.fs }, dm)

/-- `DroughtMapper.get_us(self)`, lines 89-92: the body is empty, so the
call does nothing and returns `None`. -/
def get_us (w : World) (dm : DroughtMapper) :
    Option String × World × DroughtMapper :=
  (none, w, dm)

/-- `DroughtMapper.raster(self, shapefile, outfile, **options)`,
lines 99-103: the body only calls `get_us` (which does nothing).  The
invocation is recorded in the `rasterLog` event trace so that theorems can
count how often the raster step ran; the stub writes no output file. -/
def raster (w : World) (dm : DroughtMapper) (shapefile : String)
    (outfile : Option String) : World × DroughtMapper :=
  let (_, w1, dm1) := get_us w dm
  ({ w1 with rasterLog := (shapefile, outfile) :: w1.rasterLog }, dm1)

/-- `DroughtMapper.render(self, date=None, outfile=None, **options)`,
lines 105-112: `self.get_shapefile(date)` followed by
`self.raster(shapefile, outfile, **options)`.  Note the code never calls
`get_latest_date`: the `date` argument, `None` included, goes straight to
`get_shapefile`.  An exception from `get_shapefile` propagates. -/
def render (w : World) (dm : DroughtMapper) (date : Option Date)
    (outfile : Option String) :
    Except PyError Unit × World × DroughtMapper :=
  match get_shapefile w dm date false with
  | (Except.error e, w1, dm1) => (Except.error e, w1, dm1)
  | (Except.ok shapefile, w1, dm1) =>
    let (w2, dm2) := raster w1 dm1 shapefile outfile
    (Except.ok (), w2, dm2)

/-! ## The archive filename and cache path -/

/-- The basename of the archive URL: `USDM_<YYYYMMDD>_M.zip`. -/
def usdmFilename (d : Date) : String :=
  "USDM_" ++ pad4 d.year ++ pad2 d.month ++ pad2 d.day ++ "_M.zip"

theorem data_append (a b : String) : (a ++ b).data = a.data ++ b.data := rfl

theorem digitChar_ne_slash (n : Nat) : (digitChar n != '/') = true := by
  unfold digitChar
  split <;> decide

theorem pad4_no_slash (n : Nat) : ∀ c ∈ (pad4 n).data, (c != '/') = true := by
  intro c hc
  simp only [pad4, List.mem_cons, List.not_mem_nil, or_false] at hc
  rcases hc with h | h | h | h <;> (subst h; exact digitChar_ne_slash _)

theorem pad2_no_slash (n : Nat) : ∀ c ∈ (pad2 n).data, (c != '/') = true := by
  intro c hc
  simp only [pad2, List.mem_cons, List.not_mem_nil, or_false] at hc
  rcases hc with h | h <;> (subst h; exact digitChar_ne_slash _)

theorem takeWhile_append_all (p : Char → Bool) (l1 l2 : List Char)
    (h : ∀ c ∈ l1, p c = true) :
    (l1 ++ l2).takeWhile p = l1 ++ l2.takeWhile p := by
  induction l1 with
  | nil => rfl
  | cons c cs ih =>
    rw [List.cons_append, List.takeWhile_cons, if_pos (h c (by simp)),
      ih (fun x hx => h x (by simp [hx])), List.cons_append]

theorem tail_no_slash (d : Date) :
    ∀ c ∈ (pad4 d.year).data ++ ((pad2 d.month).data ++ ((pad2 d.day).data ++ "_M.zip".data)),
      (c != '/') = true := by
  have hz : ∀ c ∈ "_M.zip".data, (c != '/') = true := by decide
  intro c hc
  rcases List.mem_append.mp hc with h | h
  · exact pad4_no_slash _ c h
  rcases List.mem_append.mp h with h | h
  · exact pad2_no_slash _ c h
  rcases List.mem_append.mp h with h | h
  · exact pad2_no_slash _ c h
  · exact hz c h

theorem usdmUrl_data (d : Date) :
    (usdmUrl d).data =
      "http://droughtmonitor.unl.edu/data/shapefiles_m/".data ++
        ("USDM_".data ++
          ((pad4 d.year).data ++ ((pad2 d.month).data ++ ((pad2 d.day).data ++ "_M.zip".data)))) := by
  unfold usdmUrl
  rw [data_append, data_append, data_append, data_append]
  rw [List.append_assoc, List.append_assoc, List.append_assoc]
  rw [show "http://droughtmonitor.unl.edu/data/shapefiles_m/USDM_".data =
    "http://droughtmonitor.unl.edu/data/shapefiles_m/".data ++ "USDM_".data from by decide]
  rw [List.append_assoc]

/-- `os.path.basename` of the archive URL is `USDM_<YYYYMMDD>_M.zip`: the
zero-padded date digits contain no slash, so the basename starts right
after the `shapefiles_m/` directory part of the URL. -/
theorem basename_usdmUrl (d : Date) : basename (usdmUrl d) = usdmFilename d := by
  have hU : ∀ c ∈ "USDM_".data.reverse, (c != '/') = true := by decide
  have hP : ("http://droughtmonitor.unl.edu/data/shapefiles_m/".data.reverse.takeWhile
      (fun c => c != '/')) = [] := by decide
  unfold basename
  rw [usdmUrl_data, List.reverse_append, List.reverse_append, List.append_assoc]
  rw [takeWhile_append_all _ _ _
    (fun c hc => tail_no_slash d c (List.mem_reverse.mp hc))]
  rw [takeWhile_append_all _ _ _ hU, hP, List.append_nil]
  apply congrArg String.mk
  rw [List.reverse_append, List.reverse_reverse, List.reverse_reverse]
  simp [usdmFilename, pad4, pad2, data_append, List.append_assoc]

/-- The filename starts with `U`, so as a `join` component it is relative. -/
theorem usdmFilename_head (d : Date) : (usdmFilename d).data.head? = some 'U' := by
  unfold usdmFilename
  rw [data_append]
  rw [show ("USDM_" ++ pad4 d.year ++ pad2 d.month ++ pad2 d.day).data =
    'U' :: ("SDM_" ++ pad4 d.year ++ pad2 d.month ++ pad2 d.day).data from rfl]
  rfl

/-- Expansion of one `os.path.join` step when the left part is non-empty,
has no trailing slash, and the right part is relative. -/
theorem joinOne_eq (a b : String) (hb : b.data.head? ≠ some '/')
    (ha : a.data ≠ []) (ha2 : a.data.getLast? ≠ some '/') :
    joinOne a b = a ++ "/" ++ b := by
  unfold joinOne
  rw [if_neg hb, if_neg (not_or.mpr ⟨ha, ha2⟩)]

/-- Expansion of the cache path `os.path.join(self.cache, 'zip', filename)`
for a cache root that is non-empty and has no trailing slash (as
`os.path.realpath` outputs other than `/` are). -/
theorem shapefilePath_eq (dm : DroughtMapper) (d : Date)
    (h1 : dm.cache.data ≠ []) (h2 : dm.cache.data.getLast? ≠ some '/') :
    shapefilePath dm d = dm.cache ++ "/" ++ "zip" ++ "/" ++ usdmFilename d := by
  have hassoc : dm.cache ++ "/" ++ "zip" = dm.cache ++ ("/" ++ "zip") :=
    String.append_assoc _ _ _
  have hne : (dm.cache ++ "/" ++ "zip").data ≠ [] := by
    rw [hassoc, data_append]
    simp
  have hlast : (dm.cache ++ "/" ++ "zip").data.getLast? ≠ some '/' := by
    rw [hassoc, data_append, List.getLast?_append]
    rw [show ("/" ++ "zip").data.getLast? = some 'p' from by decide]
    exact fun h => absurd (Option.some.inj h) (by decide)
  have hhead : (usdmFilename d).data.head? ≠ some '/' := by
    rw [usdmFilename_head]
    decide
  unfold shapefilePath
  rw [basename_usdmUrl]
  rw [joinOne_eq dm.cache "zip" (by decide) h1 h2]
  rw [joinOne_eq (dm.cache ++ "/" ++ "zip") (usdmFilename d) hhead hne hlast]

/-! ## Reduction lemmas for the operations -/

/-- Cache hit: a file exists at the computed path and the cache is not
ignored, so the path is returned with no other effect. -/
theorem get_shapefile_hit (w : World) (dm : DroughtMapper) (d : Date) (bs : List Nat)
    (h : w.fs.lookup (shapefilePath dm d) = some bs) :
    get_shapefile w dm (some d) false = (Except.ok (shapefilePath dm d), w, dm) := by
  simp [get_shapefile, h]

/-- Cache miss with a failure status: `raise_for_status` raises after the
fetch, before any write. -/
theorem get_shapefile_miss_fail (w : World) (dm : DroughtMapper) (d : Date) (ic : Bool)
    (hmiss : w.fs.lookup (shapefilePath dm d) = none)
    (hfail : httpFailure (w.net (usdmUrl d)).status = true) :
    get_shapefile w dm (some d) ic =
      (Except.error (PyError.httpError (w.net (usdmUrl d)).status),
       { w with fetchLog := usdmUrl d :: w.fetchLog }, dm) := by
  simp [get_shapefile, hmiss, hfail]

/-- Cache miss with a success status: one fetch, one write, path returned. -/
theorem get_shapefile_miss_ok (w : World) (dm : DroughtMapper) (d : Date) (ic : Bool)
    (hmiss : w.fs.lookup (shapefilePath dm d) = none)
    (hok : httpFailure (w.net (usdmUrl d)).status = false) :
    get_shapefile w dm (some d) ic =
      (Except.ok (shapefilePath dm d),
       { w with fetchLog := usdmUrl d :: w.fetchLog,
                fs := (shapefilePath dm d, (w.net (usdmUrl d)).bodyBytes) :: w.fs },
       dm) := by
  simp [get_shapefile, hmiss, hok]

/-- `get_shapefile` never touches the object state. -/
theorem get_shapefile_self (w : World) (dm : DroughtMapper) (od : Option Date) (ic : Bool) :
    (get_shapefile w dm od ic).2.2 = dm := by
  cases od with
  | none => rfl
  | some d =>
    by_cases hg : ((w.fs.lookup (shapefilePath dm d)).isSome && !ic) = true
    · simp [get_shapefile, hg]
    · by_cases hf : httpFailure (w.net (usdmUrl d)).status = true
      · simp [get_shapefile, hg, hf]
      · simp [get_shapefile, hg, hf]

/-- Whenever `get_shapefile` returns a path, it is the computed cache path. -/
theorem get_shapefile_ok_path (w : World) (dm : DroughtMapper) (d : Date) (ic : Bool)
    (p : String) (hp : (get_shapefile w dm (some d) ic).1 = Except.ok p) :
    p = shapefilePath dm d := by
  by_cases hg : ((w.fs.lookup (shapefilePath dm d)).isSome && !ic) = true
  · simp [get_shapefile, hg] at hp
    exact hp.symm
  · by_cases hf : httpFailure (w.net (usdmUrl d)).status = true
    · simp [get_shapefile, hg, hf] at hp
    · simp [get_shapefile, hg, hf] at hp
      exact hp.symm

/-- Memo hit in `get_latest_date`: the stored date is returned unchanged. -/
theorem get_latest_date_hit (w : World) (dm : DroughtMapper) (d : Date)
    (h : dm.latestDate = some d) :
    get_latest_date w dm false = (Except.ok d, w, dm) := by
  simp [get_latest_date, h]

/-- A successful `get_latest_date` call leaves the returned date in the memo. -/
theorem get_latest_date_ok_memo (w : World) (dm : DroughtMapper) (d : Date)
    (w1 : World) (dm1 : DroughtMapper)
    (h : get_latest_date w dm false = (Except.ok d, w1, dm1)) :
    dm1.latestDate = some d := by
  cases hm : dm.latestDate with
  | some d0 =>
    rw [get_latest_date_hit w dm d0 hm] at h
    simp only [Prod.mk.injEq, Except.ok.injEq] at h
    obtain ⟨h1, _, h3⟩ := h
    rw [← h3, hm, h1]
  | none =>
    simp only [get_latest_date, hm] at h
    cases hp : w.parse (w.net totalXmlUrl).bodyText with
    | none => simp [hp] at h
    | some xml =>
      simp only [hp] at h
      cases hf : xml.findChild "week" with
      | none => simp [hf] at h
      | some wk =>
        simp only [hf] at h
        cases ha : wk.attr "date" with
        | none => simp [ha] at h
        | some ds =>
          simp only [ha] at h
          cases hd : strptimeYmd ds with
          | none => simp [hd] at h
          | some d2 =>
            simp only [hd, Prod.mk.injEq, Except.ok.injEq] at h
            obtain ⟨h1, _, h3⟩ := h
            rw [← h3, h1]

/-- When the memo is unset or the cache ignored, `get_latest_date` performs
one fetch of the metadata URL, and the memo is updated exactly when a date
is returned. -/
theorem get_latest_date_fetch (w : World) (dm : DroughtMapper) (ic : Bool)
    (h : dm.latestDate = none ∨ ic = true) :
    ∃ res : Except PyError Date,
      get_latest_date w dm ic =
        (res, { w with fetchLog := totalXmlUrl :: w.fetchLog },
         match res with
         | Except.ok d => { dm with latestDate := some d }
         | Except.error _ => dm) := by
  have hred : get_latest_date w dm ic =
      (match w.parse (w.net totalXmlUrl).bodyText with
        | none => (Except.error PyError.xmlParseError,
            { w with fetchLog := totalXmlUrl :: w.fetchLog }, dm)
        | some xml =>
          match xml.findChild "week" with
          | none => (Except.error PyError.attributeError,
              { w with fetchLog := totalXmlUrl :: w.fetchLog }, dm)
          | some week =>
            match week.attr "date" with
            | none => (Except.error PyError.typeError,
                { w with fetchLog := totalXmlUrl :: w.fetchLog }, dm)
            | some ds =>
              match strptimeYmd ds with
              | none => (Except.error PyError.valueError,
                  { w with fetchLog := totalXmlUrl :: w.fetchLog }, dm)
              | some d => (Except.ok d,
                  { w with fetchLog := totalXmlUrl :: w.fetchLog },
                  { dm with latestDate := some d })) := by
    rcases h with hm | hic
    · simp [get_latest_date, hm]
    · cases hm : dm.latestDate <;> simp [get_latest_date, hm, hic]
  rw [hred]
  cases w.parse (w.net totalXmlUrl).bodyText with
  | none => exact ⟨Except.error PyError.xmlParseError, rfl⟩
  | some xml =>
    dsimp only
    cases xml.findChild "week" with
    | none => exact ⟨Except.error PyError.attributeError, rfl⟩
    | some wk =>
      dsimp only
      cases wk.attr "date" with
      | none => exact ⟨Except.error PyError.typeError, rfl⟩
      | some ds =>
        dsimp only
        cases strptimeYmd ds with
        | none => exact ⟨Except.error PyError.valueError, rfl⟩
        | some d2 => exact ⟨Except.ok d2, rfl⟩

/-- With `ignore_cache` set, `get_latest_date` always performs a fetch. -/
theorem get_latest_date_true_fetches (w : World) (dm : DroughtMapper) :
    ((get_latest_date w dm true).2.1).fetchLog = totalXmlUrl :: w.fetchLog := by
  obtain ⟨res, heq⟩ := get_latest_date_fetch w dm true (Or.inr rfl)
  rw [heq]

/-- `get_latest_date` never touches the cache-root field. -/
theorem get_latest_date_cache (w : World) (dm : DroughtMapper) (ic : Bool) :
    ((get_latest_date w dm ic).2.2).cache = dm.cache := by
  cases hm : dm.latestDate with
  | some d =>
    cases ic with
    | false => rw [get_latest_date_hit w dm d hm]
    | true =>
      obtain ⟨res, heq⟩ := get_latest_date_fetch w dm true (Or.inr rfl)
      rw [heq]
      cases res <;> rfl
  | none =>
    obtain ⟨res, heq⟩ := get_latest_date_fetch w dm ic (Or.inl hm)
    rw [heq]
    cases res <;> rfl

/-- `raster` never touches the object state. -/
theorem raster_self (w : World) (dm : DroughtMapper) (sf : String) (ofile : Option String) :
    (raster w dm sf ofile).2 = dm := rfl

/-- `render` never touches the object state. -/
theorem render_self (w : World) (dm : DroughtMapper) (od : Option Date) (ofile : Option String) :
    (render w dm od ofile).2.2 = dm := by
  unfold render
  split
  · rename_i e w1 dm1 heq
    have := get_shapefile_self w dm od false
    rw [heq] at this
    exact this
  · rename_i sf w1 dm1 heq
    have := get_shapefile_self w dm od false
    rw [heq] at this
    exact this

/-! ## Concrete example data -/

/-- The date 2014-06-24 used throughout the repository's doc comments. -/
def exDate : Date := { year := 2014, month := 6, day := 24 }

/-- A `week` element as found in the metadata document. -/
def exWeek : Xml := Xml.elem "week" [("date", "20140624")] []

/-- A well-formed metadata document with one week entry. -/
def exXml : Xml := Xml.elem "total" [] [exWeek]

/-- The serialized form of `exXml`. -/
def exBody : String := "<total><week date=\"20140624\" /></total>"

/-- A parser behaviour that parses exactly `exBody` into `exXml`. -/
def exParse : String → Option Xml :=
  fun s => if s = exBody then some exXml else none

/-- A `realpath` resolving relative paths under `/home/user`. -/
def exRealpath : String → String := fun s => "/home/user/" ++ s

/-- An environment whose server always answers 200 with the example body. -/
def exW : World :=
  { net := fun _ => { status := 200, bodyText := exBody, bodyBytes := [80, 75, 3, 4] },
    parse := exParse, realpath := exRealpath, fs := [], fetchLog := [], rasterLog := [] }

/-- A fresh mapper instance rooted at `/home/user/.cache`. -/
def exDM : DroughtMapper := { cache := "/home/user/.cache", latestDate := none }

/-- Like `exW` but every request is answered with status 404 (and still a
parseable body, as a captive portal or custom error page would return). -/
def exW404 : World :=
  { exW with net := fun _ => { status := 404, bodyText := exBody, bodyBytes := [] } }

/-- Like `exW` but the server answers with a body that is not XML. -/
def exWGarbage : World :=
  { exW with net := fun _ => { status := 200, bodyText := "not xml", bodyBytes := [] } }

/-- Like `exW` but with the archive for `exDate` already cached. -/
def exWCached : World :=
  { exW with fs := [(shapefilePath exDM exDate, [1, 2, 3])] }

/-- `exW` after one metadata fetch. -/
def exW1 : World := { exW with fetchLog := [totalXmlUrl] }

/-- `exDM` after memoising `exDate`. -/
def exDM1 : DroughtMapper := { exDM with latestDate := some exDate }

/-! ## Claims -/

/-- C1: the claim says `render` with no date argument first resolves the
date via `get_latest_date`, then fetches the shapefile for it and invokes
the raster step exactly once, producing one output file.  The code instead
passes the `None` date argument straight to `get_shapefile` (line 111),
where `date.strftime` raises `AttributeError`; `get_latest_date` is never
called, nothing is fetched, the raster step never runs, and no file is
written — the returned world is the input world unchanged.  This
contradicts the module's own usage (`__main__` runs
`DroughtMapper().render()`) and the docstring "running this should take
care of all the intermediate steps", so it is a bug in the code. -/
theorem render_none_attribute_error (w : World) (dm : DroughtMapper)
    (outfile : Option String) :
    render w dm none outfile = (Except.error PyError.attributeError, w, dm) := rfl

/-- C2: for every date with no cache file at the computed path, a response
with a failure status makes `get_shapefile` raise `HTTPError` (the
`RemoteFetchError` of the design) via `raise_for_status`, after exactly
one fetch and before any write: the filesystem is returned unchanged and
the object state untouched. -/
theorem get_shapefile_failure_no_write (w : World) (dm : DroughtMapper) (d : Date)
    (ic : Bool)
    (hmiss : w.fs.lookup (shapefilePath dm d) = none)
    (hfail : httpFailure (w.net (usdmUrl d)).status = true) :
    get_shapefile w dm (some d) ic =
      (Except.error (PyError.httpError (w.net (usdmUrl d)).status),
       { w with fetchLog := usdmUrl d :: w.fetchLog }, dm) ∧
    ((get_shapefile w dm (some d) ic).2.1).fs = w.fs := by
  have h := get_shapefile_miss_fail w dm d ic hmiss hfail
  exact ⟨h, by rw [h]⟩

/-- Witness for C2 at a concrete 404 world. -/
theorem get_shapefile_failure_no_write_witness :
    exW404.fs.lookup (shapefilePath exDM exDate) = none ∧
    httpFailure (exW404.net (usdmUrl exDate)).status = true ∧
    (get_shapefile exW404 exDM (some exDate) false =
      (Except.error (PyError.httpError (exW404.net (usdmUrl exDate)).status),
       { exW404 with fetchLog := usdmUrl exDate :: exW404.fetchLog }, exDM) ∧
     ((get_shapefile exW404 exDM (some exDate) false).2.1).fs = exW404.fs) :=
  ⟨rfl, rfl, get_shapefile_failure_no_write exW404 exDM exDate false rfl rfl⟩

/-- C3 counterexample: the claim says any call in which the HTTP request
does not succeed fails with `RemoteFetchError`.  But `get_latest_date`
never checks the response status (there is no `raise_for_status` on
line 43's response): a 404 response whose body still parses as XML with a
`week` element makes `get_latest_date` return a date successfully instead
of failing. -/
theorem get_latest_date_ignores_status :
    httpFailure (exW404.net totalXmlUrl).status = true ∧
    (get_latest_date exW404 exDM false).1 = Except.ok exDate := ⟨rfl, rfl⟩

/-- C3 amended: on a fetching call, `get_latest_date` does fail when the
body cannot be parsed as XML (`ParseError`) or when the parsed document
has no `week` element (`AttributeError` from `None.get`); the HTTP status
itself is never examined. -/
theorem get_latest_date_malformed_fails (w : World) (dm : DroughtMapper)
    (hmemo : dm.latestDate = none)
    (h : w.parse (w.net totalXmlUrl).bodyText = none ∨
         ∃ x, w.parse (w.net totalXmlUrl).bodyText = some x ∧
           x.findChild "week" = none) :
    ∃ e, get_latest_date w dm false =
        (Except.error e, { w with fetchLog := totalXmlUrl :: w.fetchLog }, dm) ∧
      (e = PyError.xmlParseError ∨ e = PyError.attributeError) := by
  rcases h with hp | ⟨x, hp, hf⟩
  · exact ⟨PyError.xmlParseError, by simp [get_latest_date, hmemo, hp], Or.inl rfl⟩
  · exact ⟨PyError.attributeError, by simp [get_latest_date, hmemo, hp, hf], Or.inr rfl⟩

/-- Witness for the amended C3 at a concrete non-XML body. -/
theorem get_latest_date_malformed_fails_witness :
    exDM.latestDate = none ∧
    exWGarbage.parse (exWGarbage.net totalXmlUrl).bodyText = none ∧
    (∃ e, get_latest_date exWGarbage exDM false =
        (Except.error e,
         { exWGarbage with fetchLog := totalXmlUrl :: exWGarbage.fetchLog }, exDM) ∧
      (e = PyError.xmlParseError ∨ e = PyError.attributeError)) :=
  ⟨rfl, rfl, get_latest_date_malformed_fails exWGarbage exDM rfl (Or.inl rfl)⟩

/-- C4: on a fetching call, a metadata document with a first `week`
element whose `date` attribute parses under the eight-digit
year-month-day format makes `get_latest_date` return exactly that parsed
date (and memoise it), after one fetch.  `Xml.findChild` returns the
first `week` child, matching "the first week is the latest" comment. -/
theorem get_latest_date_parses_first_week (w : World) (dm : DroughtMapper)
    (x wk : Xml) (s : String) (d : Date)
    (hmemo : dm.latestDate = none)
    (hparse : w.parse (w.net totalXmlUrl).bodyText = some x)
    (hfind : x.findChild "week" = some wk)
    (hattr : wk.attr "date" = some s)
    (hdate : strptimeYmd s = some d) :
    get_latest_date w dm false =
      (Except.ok d, { w with fetchLog := totalXmlUrl :: w.fetchLog },
       { dm with latestDate := some d }) := by
  simp [get_latest_date, hmemo, hparse, hfind, hattr, hdate]

/-- Witness for C4 at the concrete example document. -/
theorem get_latest_date_parses_first_week_witness :
    exDM.latestDate = none ∧
    exW.parse (exW.net totalXmlUrl).bodyText = some exXml ∧
    exXml.findChild "week" = some exWeek ∧
    exWeek.attr "date" = some "20140624" ∧
    strptimeYmd "20140624" = some exDate ∧
    get_latest_date exW exDM false = (Except.ok exDate, exW1, exDM1) :=
  ⟨rfl, rfl, rfl, rfl, rfl,
    get_latest_date_parses_first_week exW exDM exXml exWeek "20140624" exDate
      rfl rfl rfl rfl rfl⟩

/-- C5: after a successful `get_latest_date` call, a second call without
`ignore_cache` returns the identical value and changes nothing — in
particular no fetch is recorded; and at that same memoised state a call
with `ignore_cache` set performs a new fetch regardless of the memo. -/
theorem get_latest_date_memoised (w : World) (dm : DroughtMapper) (d : Date)
    (w1 : World) (dm1 : DroughtMapper)
    (h : get_latest_date w dm false = (Except.ok d, w1, dm1)) :
    get_latest_date w1 dm1 false = (Except.ok d, w1, dm1) ∧
    ((get_latest_date w1 dm1 true).2.1).fetchLog = totalXmlUrl :: w1.fetchLog := by
  have hm := get_latest_date_ok_memo w dm d w1 dm1 h
  exact ⟨get_latest_date_hit w1 dm1 d hm, get_latest_date_true_fetches w1 dm1⟩

/-- Witness for C5 starting from the fresh example state. -/
theorem get_latest_date_memoised_witness :
    get_latest_date exW exDM false = (Except.ok exDate, exW1, exDM1) ∧
    (get_latest_date exW1 exDM1 false = (Except.ok exDate, exW1, exDM1) ∧
     ((get_latest_date exW1 exDM1 true).2.1).fetchLog = totalXmlUrl :: exW1.fetchLog) :=
  ⟨rfl, get_latest_date_memoised exW exDM exDate exW1 exDM1 rfl⟩

/-- C6: when a file already exists at the computed cache path and
`ignore_cache` is false, `get_shapefile` returns that path and nothing
else happens: the world (so no fetch, no write) and the object state are
returned unchanged, whatever bytes the cached file holds — the content is
never validated. -/
theorem get_shapefile_cache_hit (w : World) (dm : DroughtMapper) (d : Date)
    (bs : List Nat)
    (h : w.fs.lookup (shapefilePath dm d) = some bs) :
    get_shapefile w dm (some d) false = (Except.ok (shapefilePath dm d), w, dm) :=
  get_shapefile_hit w dm d bs h

/-- Witness for C6 at a world with the archive already cached. -/
theorem get_shapefile_cache_hit_witness :
    exWCached.fs.lookup (shapefilePath exDM exDate) = some [1, 2, 3] ∧
    get_shapefile exWCached exDM (some exDate) false =
      (Except.ok (shapefilePath exDM exDate), exWCached, exDM) :=
  ⟨rfl, get_shapefile_cache_hit exWCached exDM exDate [1, 2, 3] rfl⟩

/-- C7: when no file exists at the computed cache path and the response is
a success, `get_shapefile` performs exactly one fetch (one new entry in
the fetch log), writes the response body bytes unchanged to the cache
path, and returns that path. -/
theorem get_shapefile_downloads (w : World) (dm : DroughtMapper) (d : Date)
    (hmiss : w.fs.lookup (shapefilePath dm d) = none)
    (hok : httpFailure (w.net (usdmUrl d)).status = false) :
    get_shapefile w dm (some d) false =
      (Except.ok (shapefilePath dm d),
       { w with fetchLog := usdmUrl d :: w.fetchLog,
                fs := (shapefilePath dm d, (w.net (usdmUrl d)).bodyBytes) :: w.fs },
       dm) :=
  get_shapefile_miss_ok w dm d false hmiss hok

/-- Witness for C7 at the fresh example world. -/
theorem get_shapefile_downloads_witness :
    exW.fs.lookup (shapefilePath exDM exDate) = none ∧
    httpFailure (exW.net (usdmUrl exDate)).status = false ∧
    get_shapefile exW exDM (some exDate) false =
      (Except.ok (shapefilePath exDM exDate),
       { exW with fetchLog := usdmUrl exDate :: exW.fetchLog,
                  fs := (shapefilePath exDM exDate,
                    (exW.net (usdmUrl exDate)).bodyBytes) :: exW.fs },
       exDM) :=
  ⟨rfl, rfl, get_shapefile_downloads exW exDM exDate rfl rfl⟩

/-- C8: the URL `get_shapefile` fetches is the archive endpoint with the
eight zero-padded date digits substituted into
`.../USDM_<YYYYMMDD>_M.zip`, and the cache path is
`join(cache, 'zip', basename(url))`, whose basename component is exactly
`USDM_<YYYYMMDD>_M.zip`; whenever the call succeeds it returns that
path. -/
theorem get_shapefile_url_path_format (w : World) (dm : DroughtMapper) (d : Date)
    (hmiss : w.fs.lookup (shapefilePath dm d) = none) :
    (usdmUrl d).data =
      "http://droughtmonitor.unl.edu/data/shapefiles_m/USDM_".data ++
        ((pad4 d.year).data ++ ((pad2 d.month).data ++
          ((pad2 d.day).data ++ "_M.zip".data))) ∧
    ((get_shapefile w dm (some d) false).2.1).fetchLog = usdmUrl d :: w.fetchLog ∧
    shapefilePath dm d = joinOne (joinOne dm.cache "zip") (basename (usdmUrl d)) ∧
    basename (usdmUrl d) = usdmFilename d ∧
    (httpFailure (w.net (usdmUrl d)).status = false →
      (get_shapefile w dm (some d) false).1 = Except.ok (shapefilePath dm d)) := by
  refine ⟨?_, ?_, rfl, basename_usdmUrl d, ?_⟩
  · simp [usdmUrl, data_append, List.append_assoc]
  · cases hf : httpFailure (w.net (usdmUrl d)).status with
    | true => rw [get_shapefile_miss_fail w dm d false hmiss hf]
    | false => rw [get_shapefile_miss_ok w dm d false hmiss hf]
  · intro hok
    rw [get_shapefile_miss_ok w dm d false hmiss hok]

/-- Witness for C8 at the fresh example world. -/
theorem get_shapefile_url_path_format_witness :
    exW.fs.lookup (shapefilePath exDM exDate) = none ∧
    ((usdmUrl exDate).data =
      "http://droughtmonitor.unl.edu/data/shapefiles_m/USDM_".data ++
        ((pad4 exDate.year).data ++ ((pad2 exDate.month).data ++
          ((pad2 exDate.day).data ++ "_M.zip".data))) ∧
     ((get_shapefile exW exDM (some exDate) false).2.1).fetchLog =
       usdmUrl exDate :: exW.fetchLog ∧
     shapefilePath exDM exDate =
       joinOne (joinOne exDM.cache "zip") (basename (usdmUrl exDate)) ∧
     basename (usdmUrl exDate) = usdmFilename exDate ∧
     (httpFailure (exW.net (usdmUrl exDate)).status = false →
       (get_shapefile exW exDM (some exDate) false).1 =
         Except.ok (shapefilePath exDM exDate))) :=
  ⟨rfl, get_shapefile_url_path_format exW exDM exDate rfl⟩

/-- C9: whatever its date argument, flag and outcome, `get_shapefile`
leaves the mapper's memoised latest-date state and its configured
cache-root path unchanged: the object state is passed through untouched
(only the world's filesystem may gain `get_shapefile`'s own cache
entry). -/
theorem get_shapefile_frame (w : World) (dm : DroughtMapper) (od : Option Date)
    (ic : Bool) :
    ((get_shapefile w dm od ic).2.2).latestDate = dm.latestDate ∧
    ((get_shapefile w dm od ic).2.2).cache = dm.cache ∧
    ((get_shapefile w dm od ic).2.1).rasterLog = w.rasterLog := by
  refine ⟨?_, ?_, ?_⟩
  · rw [get_shapefile_self]
  · rw [get_shapefile_self]
  · cases od with
    | none => rfl
    | some d =>
      by_cases hg : ((w.fs.lookup (shapefilePath dm d)).isSome && !ic) = true
      · simp [get_shapefile, hg]
      · cases hf : httpFailure (w.net (usdmUrl d)).status with
        | true => simp [get_shapefile, hg, hf]
        | false => simp [get_shapefile, hg, hf]

/-- C10: the cache root is fixed at construction to
`os.path.realpath(cache)` with `.cache` the default argument, no
operation ever reassigns it, and (for a realpath-normalised root, which
is non-empty with no trailing slash) every path `get_shapefile` returns
extends the root by the non-empty suffix `/zip/USDM_<YYYYMMDD>_M.zip` —
it lies strictly under the root. -/
theorem cache_root_fixed (w : World) (dm : DroughtMapper) (arg : String)
    (od : Option Date) (d : Date) (ic ic2 : Bool) (sf : String)
    (outfile : Option String) (p : String)
    (h1 : dm.cache.data ≠ []) (h2 : dm.cache.data.getLast? ≠ some '/')
    (hp : (get_shapefile w dm (some d) ic).1 = Except.ok p) :
    (DroughtMapper.init w arg).cache = w.realpath arg ∧
    DroughtMapper.initDefault w = DroughtMapper.init w ".cache" ∧
    ((get_latest_date w dm ic2).2.2).cache = dm.cache ∧
    ((get_shapefile w dm od ic).2.2).cache = dm.cache ∧
    ((raster w dm sf outfile).2).cache = dm.cache ∧
    ((render w dm od outfile).2.2).cache = dm.cache ∧
    p.data = dm.cache.data ++ ("/" ++ "zip" ++ "/" ++ usdmFilename d).data ∧
    ("/" ++ "zip" ++ "/" ++ usdmFilename d).data ≠ [] := by
  refine ⟨rfl, rfl, get_latest_date_cache w dm ic2, ?_, ?_, ?_, ?_, ?_⟩
  · rw [get_shapefile_self]
  · rw [raster_self]
  · rw [render_self]
  · have hpeq := get_shapefile_ok_path w dm d ic p hp
    rw [hpeq, shapefilePath_eq dm d h1 h2]
    simp [data_append, List.append_assoc]
  · simp [data_append]

/-- Witness for C10 at the fresh example world. -/
theorem cache_root_fixed_witness :
    exDM.cache.data ≠ [] ∧
    exDM.cache.data.getLast? ≠ some '/' ∧
    (get_shapefile exW exDM (some exDate) false).1 =
      Except.ok (shapefilePath exDM exDate) ∧
    ((DroughtMapper.init exW ".cache").cache = exW.realpath ".cache" ∧
     DroughtMapper.initDefault exW = DroughtMapper.init exW ".cache" ∧
     ((get_latest_date exW exDM false).2.2).cache = exDM.cache ∧
     ((get_shapefile exW exDM (some exDate) false).2.2).cache = exDM.cache ∧
     ((raster exW exDM "shp" none).2).cache = exDM.cache ∧
     ((render exW exDM (some exDate) none).2.2).cache = exDM.cache ∧
     (shapefilePath exDM exDate).data =
       exDM.cache.data ++ ("/" ++ "zip" ++ "/" ++ usdmFilename exDate).data ∧
     ("/" ++ "zip" ++ "/" ++ usdmFilename exDate).data ≠ []) :=
  ⟨by decide, by decide, rfl,
    cache_root_fixed exW exDM ".cache" (some exDate) exDate false false "shp"
      none (shapefilePath exDM exDate) (by decide) (by decide) rfl⟩
